import Mathlib

/-!
Shallow embedding of the interval-prediction core of the
spaced-repetition server, together with theorems settling the
specification claims about it.

Numbers are modelled by exact rationals (`ℚ`); the JavaScript source
computes with IEEE doubles, whose rounding is not modelled.  JavaScript
primitives that can yield non-finite values (division, `Math.sqrt`,
`Math.log1p` outside their domains) are embedded as `Option`-valued
operations: `none` stands for a NaN/Infinity outcome.  Transcendental
primitives (`Math.exp`, `Math.sin`, ...) are abstracted as parameters:
on their actual argument domains in this code they are total and
finite-valued, so they appear as total functions `ℚ → ℚ`.
-/

namespace SM2

/-- `Math.round` in JavaScript: round half toward positive infinity,
i.e. `⌊x + 1/2⌋` (this agrees with Mathlib's `round`). -/
def jsRound (x : ℚ) : ℚ := ((⌊x + 1/2⌋ : ℤ) : ℚ)

/-- JavaScript `x || d` on numbers (for non-NaN values): `x` is falsy
exactly when it is `0`. -/
def jsOrQ (x d : ℚ) : ℚ := if x = 0 then d else x

/-- The card-state fields read by `calculateSM2Interval` and
`applySM2Algorithm` (src/algorithms/sm2.js). -/
structure Question where
  repetitions : ℕ
  easeFactor : ℚ
  memoryStrength : ℚ
  averageResponseTime : ℚ
  deriving DecidableEq

/-- Result record of `calculateSM2Interval`. -/
structure SM2Result where
  interval : ℚ
  repetitions : ℕ
  easeFactor : ℚ
  quality : ℕ
  deriving DecidableEq

/-- `calculateSM2Interval(question, isCorrect, userQuality)` from
src/algorithms/sm2.js.  `userQuality = none` models passing `null`. -/
def calculateSM2Interval (question : Question) (isCorrect : Bool)
    (userQuality : Option ℕ) : SM2Result :=
  let quality : ℕ :=
    match userQuality with
    | some q => q
    | none => if isCorrect then 4 else 2
  let repetitions := question.repetitions
  let easeFactor := jsOrQ question.easeFactor (5/2)
  let interval := jsOrQ question.memoryStrength 1
  if quality < 3 then
    { interval := 1, repetitions := 0, easeFactor := easeFactor, quality := quality }
  else
    let ef := easeFactor + (1/10 - (5 - (quality : ℚ)) * (2/25 + (5 - (quality : ℚ)) * (1/50)))
    let ef := if ef < 13/10 then 13/10 else ef
    let ivl : ℚ :=
      if repetitions = 0 then 1
      else if repetitions = 1 then 6
      else jsRound (interval * ef)
    let ivl := if ivl > 365 then 365 else ivl
    { interval := ivl, repetitions := repetitions + 1, easeFactor := ef, quality := quality }

/-- `calculateQualityWithResponseTime(isCorrect, responseTime,
averageResponseTime)` from src/algorithms/sm2.js. -/
def calculateQualityWithResponseTime (isCorrect : Bool)
    (responseTime averageResponseTime : ℚ) : ℕ :=
  if !isCorrect then
    if responseTime < 1000 then 0
    else if responseTime > 5000 then 2
    else 1
  else
    let ratio := responseTime / averageResponseTime
    if ratio < 1/2 then 5
    else if ratio < 1 then 4
    else 3

/-- `applySM2Algorithm(question, isCorrect, responseTime)` from
src/algorithms/sm2.js: derives the quality from the response time and the
card's historical average, then runs the SM-2 transition. -/
def applySM2Algorithm (question : Question) (isCorrect : Bool)
    (responseTime : ℚ) : SM2Result :=
  let avgResponseTime := jsOrQ question.averageResponseTime 3000
  let quality := calculateQualityWithResponseTime isCorrect responseTime avgResponseTime
  calculateSM2Interval question isCorrect (some quality)

end SM2

namespace Features

/-- Abstract transcendental primitives of JavaScript's `Math` object
(plus the constant `Math.PI`).  On the argument domains reached by
src/ml/advanced-features.js these are total, finite-valued functions, so
they are modelled as parameters of type `ℚ → ℚ`. -/
structure Prims where
  exp : ℚ → ℚ
  sin : ℚ → ℚ
  cos : ℚ → ℚ
  atan2 : ℚ → ℚ → ℚ
  log1p : ℚ → ℚ
  sqrt : ℚ → ℚ
  pi : ℚ

/-- JavaScript division; `none` models the Infinity/NaN result on a zero
denominator. -/
def jsDiv (x y : ℚ) : Option ℚ := if y = 0 then none else some (x / y)

/-- `Math.log1p`; `none` models the non-finite result for arguments `≤ -1`. -/
def jsLog1p (p : Prims) (x : ℚ) : Option ℚ := if x ≤ -1 then none else some (p.log1p x)

/-- `Math.sqrt`; `none` models the NaN result on negative arguments. -/
def jsSqrt (p : Prims) (x : ℚ) : Option ℚ := if x < 0 then none else some (p.sqrt x)

/-- The 8 base signals handed to `createAdvancedFeatureVector`
(src/ml/advanced-features.js); `averageResponseTime` is in milliseconds. -/
structure BaseFeatures where
  memoryStrength : ℚ
  difficultyRating : ℚ
  timeSinceLastReview : ℚ
  successRate : ℚ
  averageResponseTime : ℚ
  totalReviews : ℚ
  consecutiveCorrect : ℚ
  timeOfDay : ℚ
  deriving DecidableEq

/-- Result of `calculateForgettingCurveFeatures` (5 features). -/
structure ForgettingCurveFeatures where
  forgettingCurve : ℚ
  adjustedDecay : ℚ
  logTimeDecay : ℚ
  logMemoryStrength : ℚ
  decayRate : ℚ

/-- `calculateForgettingCurveFeatures(memoryStrength, timeSinceLastReview,
successRate)` from src/ml/advanced-features.js. -/
def calculateForgettingCurveFeatures (p : Prims)
    (memoryStrength timeSinceLastReview successRate : ℚ) :
    Option ForgettingCurveFeatures := do
  let decayRate ← jsDiv timeSinceLastReview (max memoryStrength (1/10))
  let forgettingCurve := p.exp (-decayRate)
  let learnerStrength := successRate * 2
  let adjustedRatio ← jsDiv decayRate (max learnerStrength (1/10))
  let adjustedDecay := p.exp (-adjustedRatio)
  let logTimeDecay ← jsLog1p p decayRate
  let logMemoryStrength ← jsLog1p p memoryStrength
  pure ⟨forgettingCurve, adjustedDecay, logTimeDecay, logMemoryStrength, decayRate⟩

/-- Result of `calculateInteractionFeatures` (10 features). -/
structure InteractionFeatures where
  difficultyTimeProduct : ℚ
  difficultyMemoryProduct : ℚ
  successMemoryProduct : ℚ
  successTimeProduct : ℚ
  responseTimeDifficultyProduct : ℚ
  responseTimeMemoryProduct : ℚ
  consecutiveMemoryProduct : ℚ
  consecutiveDifficultyRatio : ℚ
  experienceSuccessProduct : ℚ
  experienceDifficultyRatio : ℚ

/-- `calculateInteractionFeatures(features)` from
src/ml/advanced-features.js. -/
def calculateInteractionFeatures (f : BaseFeatures) : Option InteractionFeatures := do
  let consecutiveDifficultyRatio ←
    if f.difficultyRating > 0 then jsDiv f.consecutiveCorrect f.difficultyRating
    else pure f.consecutiveCorrect
  let experienceDifficultyRatio ←
    if f.difficultyRating > 0 then jsDiv f.totalReviews (f.difficultyRating + 1)
    else pure f.totalReviews
  pure
    { difficultyTimeProduct := f.difficultyRating * f.timeSinceLastReview
      difficultyMemoryProduct := f.difficultyRating * f.memoryStrength
      successMemoryProduct := f.successRate * f.memoryStrength
      successTimeProduct := f.successRate * f.timeSinceLastReview
      responseTimeDifficultyProduct := (f.averageResponseTime / 1000) * f.difficultyRating
      responseTimeMemoryProduct := (f.averageResponseTime / 1000) * f.memoryStrength
      consecutiveMemoryProduct := f.consecutiveCorrect * f.memoryStrength
      consecutiveDifficultyRatio := consecutiveDifficultyRatio
      experienceSuccessProduct := f.totalReviews * f.successRate
      experienceDifficultyRatio := experienceDifficultyRatio }

/-- Result of `calculatePolynomialFeatures` (9 features). -/
structure PolynomialFeatures where
  memoryStrengthSquared : ℚ
  difficultySquared : ℚ
  timeSquared : ℚ
  successRateSquared : ℚ
  memoryStrengthCubed : ℚ
  timeCubed : ℚ
  sqrtMemoryStrength : ℚ
  sqrtTime : ℚ
  sqrtTotalReviews : ℚ

/-- `calculatePolynomialFeatures(features)` from
src/ml/advanced-features.js. -/
def calculatePolynomialFeatures (p : Prims) (f : BaseFeatures) :
    Option PolynomialFeatures := do
  let sqrtMemoryStrength ← jsSqrt p (max f.memoryStrength 0)
  let sqrtTime ← jsSqrt p (max f.timeSinceLastReview 0)
  let sqrtTotalReviews ← jsSqrt p (max f.totalReviews 0)
  pure
    { memoryStrengthSquared := f.memoryStrength * f.memoryStrength
      difficultySquared := f.difficultyRating * f.difficultyRating
      timeSquared := f.timeSinceLastReview * f.timeSinceLastReview
      successRateSquared := f.successRate * f.successRate
      memoryStrengthCubed := f.memoryStrength ^ 3
      timeCubed := f.timeSinceLastReview ^ 3
      sqrtMemoryStrength := sqrtMemoryStrength
      sqrtTime := sqrtTime
      sqrtTotalReviews := sqrtTotalReviews }

/-- Result of `encodeCyclicalTime` (5 features). -/
structure CyclicalTimeFeatures where
  timeSin : ℚ
  timeCos : ℚ
  timeSin2 : ℚ
  timeCos2 : ℚ
  timePhase : ℚ

/-- `encodeCyclicalTime(timeOfDay)` from src/ml/advanced-features.js;
total, no guards needed. -/
def encodeCyclicalTime (p : Prims) (timeOfDay : ℚ) : CyclicalTimeFeatures :=
  let radians := timeOfDay * 2 * p.pi
  { timeSin := p.sin radians
    timeCos := p.cos radians
    timeSin2 := p.sin (2 * radians)
    timeCos2 := p.cos (2 * radians)
    timePhase := p.atan2 (p.sin radians) (p.cos radians) }

/-- Result of `calculateMovingAverageFeatures` (5 features). -/
structure MovingAverageFeatures where
  maDifficulty : ℚ
  maResponseTime : ℚ
  maSuccessRate : ℚ
  maInterval : ℚ
  reviewFrequency : ℚ

/-- `calculateMovingAverageFeatures(baseFeatures)` from
src/ml/advanced-features.js (simplified variant: no history window). -/
def calculateMovingAverageFeatures (f : BaseFeatures) :
    Option MovingAverageFeatures := do
  let reviewFrequency ← jsDiv f.totalReviews (max f.timeSinceLastReview 1)
  pure
    { maDifficulty := f.difficultyRating
      maResponseTime := f.averageResponseTime / 1000
      maSuccessRate := f.successRate
      maInterval := f.timeSinceLastReview
      reviewFrequency := reviewFrequency }

/-- Result of `calculateMomentumFeatures` (4 features). -/
structure MomentumFeatures where
  learningVelocity : ℚ
  difficultyTrend : ℚ
  performanceAcceleration : ℚ
  masteryMomentum : ℚ

/-- `calculateMomentumFeatures(baseFeatures)` from
src/ml/advanced-features.js. -/
def calculateMomentumFeatures (f : BaseFeatures) : Option MomentumFeatures := do
  let learningVelocity ← jsDiv f.consecutiveCorrect (max f.totalReviews 1)
  pure
    { learningVelocity := learningVelocity
      difficultyTrend := 0
      performanceAcceleration := f.successRate - 1/2
      masteryMomentum := learningVelocity * f.memoryStrength }

/-- Result of `calculateRetentionFeatures` (5 features). -/
structure RetentionFeatures where
  predictedRetention : ℚ
  confidenceScore : ℚ
  stabilityIndex : ℚ
  learningEfficiency : ℚ
  optimalIntervalEstimate : ℚ

/-- `calculateRetentionFeatures(baseFeatures, forgettingCurveFeatures)`
from src/ml/advanced-features.js. -/
def calculateRetentionFeatures (f : BaseFeatures)
    (fc : ForgettingCurveFeatures) : Option RetentionFeatures := do
  let stabilityIndex ← jsDiv f.memoryStrength (max f.timeSinceLastReview (1/10))
  let learningEfficiency ← jsDiv f.successRate (max (f.averageResponseTime / 1000) (1/10))
  pure
    { predictedRetention := fc.forgettingCurve * f.successRate
      confidenceScore := f.successRate * (1 - f.difficultyRating)
      stabilityIndex := stabilityIndex
      learningEfficiency := learningEfficiency
      optimalIntervalEstimate := f.memoryStrength * (1 + f.successRate) }

/-- The combined 51-feature record built by `createAdvancedFeatureVector`
(8 base + 5 forgetting-curve + 10 interaction + 9 polynomial +
5 cyclical + 5 moving-average + 4 momentum + 5 retention). -/
structure AdvancedFeatures where
  memoryStrength : ℚ
  difficultyRating : ℚ
  timeSinceLastReview : ℚ
  successRate : ℚ
  averageResponseTime : ℚ
  totalReviews : ℚ
  consecutiveCorrect : ℚ
  timeOfDay : ℚ
  forgettingCurve : ℚ
  adjustedDecay : ℚ
  logTimeDecay : ℚ
  logMemoryStrength : ℚ
  decayRate : ℚ
  difficultyTimeProduct : ℚ
  difficultyMemoryProduct : ℚ
  successMemoryProduct : ℚ
  successTimeProduct : ℚ
  responseTimeDifficultyProduct : ℚ
  responseTimeMemoryProduct : ℚ
  consecutiveMemoryProduct : ℚ
  consecutiveDifficultyRatio : ℚ
  experienceSuccessProduct : ℚ
  experienceDifficultyRatio : ℚ
  memoryStrengthSquared : ℚ
  difficultySquared : ℚ
  timeSquared : ℚ
  successRateSquared : ℚ
  memoryStrengthCubed : ℚ
  timeCubed : ℚ
  sqrtMemoryStrength : ℚ
  sqrtTime : ℚ
  sqrtTotalReviews : ℚ
  timeSin : ℚ
  timeCos : ℚ
  timeSin2 : ℚ
  timeCos2 : ℚ
  timePhase : ℚ
  maDifficulty : ℚ
  maResponseTime : ℚ
  maSuccessRate : ℚ
  maInterval : ℚ
  reviewFrequency : ℚ
  learningVelocity : ℚ
  difficultyTrend : ℚ
  performanceAcceleration : ℚ
  masteryMomentum : ℚ
  predictedRetention : ℚ
  confidenceScore : ℚ
  stabilityIndex : ℚ
  learningEfficiency : ℚ
  optimalIntervalEstimate : ℚ

/-- `createAdvancedFeatureVector(baseFeatures, ...)` from
src/ml/advanced-features.js (the optional history arguments are unused by
the function's body). -/
def createAdvancedFeatureVector (p : Prims) (b : BaseFeatures) :
    Option AdvancedFeatures := do
  let fc ← calculateForgettingCurveFeatures p b.memoryStrength b.timeSinceLastReview b.successRate
  let inter ← calculateInteractionFeatures b
  let poly ← calculatePolynomialFeatures p b
  let cyc := encodeCyclicalTime p b.timeOfDay
  let ma ← calculateMovingAverageFeatures b
  let mom ← calculateMomentumFeatures b
  let ret ← calculateRetentionFeatures b fc
  pure
    { memoryStrength := b.memoryStrength
      difficultyRating := b.difficultyRating
      timeSinceLastReview := b.timeSinceLastReview
      successRate := b.successRate
      averageResponseTime := b.averageResponseTime / 1000
      totalReviews := b.totalReviews
      consecutiveCorrect := b.consecutiveCorrect
      timeOfDay := b.timeOfDay
      forgettingCurve := fc.forgettingCurve
      adjustedDecay := fc.adjustedDecay
      logTimeDecay := fc.logTimeDecay
      logMemoryStrength := fc.logMemoryStrength
      decayRate := fc.decayRate
      difficultyTimeProduct := inter.difficultyTimeProduct
      difficultyMemoryProduct := inter.difficultyMemoryProduct
      successMemoryProduct := inter.successMemoryProduct
      successTimeProduct := inter.successTimeProduct
      responseTimeDifficultyProduct := inter.responseTimeDifficultyProduct
      responseTimeMemoryProduct := inter.responseTimeMemoryProduct
      consecutiveMemoryProduct := inter.consecutiveMemoryProduct
      consecutiveDifficultyRatio := inter.consecutiveDifficultyRatio
      experienceSuccessProduct := inter.experienceSuccessProduct
      experienceDifficultyRatio := inter.experienceDifficultyRatio
      memoryStrengthSquared := poly.memoryStrengthSquared
      difficultySquared := poly.difficultySquared
      timeSquared := poly.timeSquared
      successRateSquared := poly.successRateSquared
      memoryStrengthCubed := poly.memoryStrengthCubed
      timeCubed := poly.timeCubed
      sqrtMemoryStrength := poly.sqrtMemoryStrength
      sqrtTime := poly.sqrtTime
      sqrtTotalReviews := poly.sqrtTotalReviews
      timeSin := cyc.timeSin
      timeCos := cyc.timeCos
      timeSin2 := cyc.timeSin2
      timeCos2 := cyc.timeCos2
      timePhase := cyc.timePhase
      maDifficulty := ma.maDifficulty
      maResponseTime := ma.maResponseTime
      maSuccessRate := ma.maSuccessRate
      maInterval := ma.maInterval
      reviewFrequency := ma.reviewFrequency
      learningVelocity := mom.learningVelocity
      difficultyTrend := mom.difficultyTrend
      performanceAcceleration := mom.performanceAcceleration
      masteryMomentum := mom.masteryMomentum
      predictedRetention := ret.predictedRetention
      confidenceScore := ret.confidenceScore
      stabilityIndex := ret.stabilityIndex
      learningEfficiency := ret.learningEfficiency
      optimalIntervalEstimate := ret.optimalIntervalEstimate }

/-- `getFeatureArray(advancedFeatures)` from src/ml/advanced-features.js:
the 51 features in the fixed serving order. -/
def getFeatureArray (a : AdvancedFeatures) : List ℚ :=
  [a.memoryStrength, a.difficultyRating, a.timeSinceLastReview, a.successRate,
   a.averageResponseTime, a.totalReviews, a.consecutiveCorrect, a.timeOfDay,
   a.forgettingCurve, a.adjustedDecay, a.logTimeDecay, a.logMemoryStrength, a.decayRate,
   a.difficultyTimeProduct, a.difficultyMemoryProduct, a.successMemoryProduct,
   a.successTimeProduct, a.responseTimeDifficultyProduct, a.responseTimeMemoryProduct,
   a.consecutiveMemoryProduct, a.consecutiveDifficultyRatio, a.experienceSuccessProduct,
   a.experienceDifficultyRatio,
   a.memoryStrengthSquared, a.difficultySquared, a.timeSquared, a.successRateSquared,
   a.memoryStrengthCubed, a.timeCubed, a.sqrtMemoryStrength, a.sqrtTime, a.sqrtTotalReviews,
   a.timeSin, a.timeCos, a.timeSin2, a.timeCos2, a.timePhase,
   a.maDifficulty, a.maResponseTime, a.maSuccessRate, a.maInterval, a.reviewFrequency,
   a.learningVelocity, a.difficultyTrend, a.performanceAcceleration, a.masteryMomentum,
   a.predictedRetention, a.confidenceScore, a.stabilityIndex, a.learningEfficiency,
   a.optimalIntervalEstimate]

/-- The feature pipeline as run by `IntervalPredictionModel`:
`createAdvancedFeatureVector` followed by `getFeatureArray`. -/
def createFeatureArray (p : Prims) (b : BaseFeatures) : Option (List ℚ) :=
  (createAdvancedFeatureVector p b).map getFeatureArray

/-- All 8 base signals are non-negative (the input domain of claim C4). -/
def NonnegBase (b : BaseFeatures) : Prop :=
  0 ≤ b.memoryStrength ∧ 0 ≤ b.difficultyRating ∧ 0 ≤ b.timeSinceLastReview ∧
  0 ≤ b.successRate ∧ 0 ≤ b.averageResponseTime ∧ 0 ≤ b.totalReviews ∧
  0 ≤ b.consecutiveCorrect ∧ 0 ≤ b.timeOfDay

instance (b : BaseFeatures) : Decidable (NonnegBase b) := by
  unfold NonnegBase
  infer_instance

/-- A concrete primitive instance (all transcendentals constantly 0),
used to evaluate the pipeline on concrete inputs. -/
def zeroPrims : Prims :=
  ⟨fun _ => 0, fun _ => 0, fun _ => 0, fun _ _ => 0, fun _ => 0, fun _ => 0, 0⟩

end Features

/-- The algorithm-mode strings used by the algorithm manager:
`'baseline'`, `'ml'` and `'ab-test'`. -/
inductive Mode where
  | baseline
  | ml
  | abtest
  deriving DecidableEq

namespace Helpers

/-- JavaScript `x || d` where `x` is a nullable number (`none` = `null`);
`null` and `0` are falsy. -/
def jsOrOptQ (x d : Option ℚ) : Option ℚ :=
  match x with
  | none => d
  | some v => if v = 0 then d else some v

/-- One entry of a card's bounded review history, as built by
`addReviewToHistory` (src/utils/question-helpers.js).  The timestamp is
not modelled. -/
structure ReviewEvent where
  recalled : Bool
  responseTime : ℚ
  intervalUsed : ℚ
  algorithmUsed : Mode
  baselineInterval : ℚ
  mlInterval : Option ℚ
  difficulty : ℚ
  deriving DecidableEq

/-- The `reviewData` argument of `addReviewToHistory`. -/
structure ReviewData where
  recalled : Bool
  responseTime : ℚ
  intervalUsed : ℚ
  algorithmUsed : Mode
  baselineInterval : ℚ
  mlInterval : Option ℚ
  difficulty : ℚ
  deriving DecidableEq

/-- The history entry pushed by `addReviewToHistory`: note
`mlInterval: reviewData.mlInterval || null` and
`difficulty: reviewData.difficulty || 3`. -/
def mkHistoryEntry (r : ReviewData) : ReviewEvent :=
  { recalled := r.recalled
    responseTime := r.responseTime
    intervalUsed := r.intervalUsed
    algorithmUsed := r.algorithmUsed
    baselineInterval := r.baselineInterval
    mlInterval := jsOrOptQ r.mlInterval none
    difficulty := SM2.jsOrQ r.difficulty 3 }

/-- `addReviewToHistory(question, reviewData)` from
src/utils/question-helpers.js, restricted to its effect on
`question.reviewHistory`: push the new entry, then
`slice(-100)` (keep the last 100 entries) once the length exceeds 100. -/
def addReviewToHistory (history : List ReviewEvent) (r : ReviewData) :
    List ReviewEvent :=
  let h := history ++ [mkHistoryEntry r]
  if 100 < h.length then h.drop (h.length - 100) else h

/-- `updateLinkedList(user, questionIndex, interval)` from
src/utils/question-helpers.js, restricted to the successor/head
computation: `none` models the early return that leaves the user
unchanged (`questionIndex >= n || interval < 1`); otherwise the result is
the new value of `questions[questionIndex].next`, which is also the new
head.  (The function additionally recomputes the card's displayed
`memoryStrength`; no claim concerns that part.) -/
def updateLinkedListNext (n questionIndex interval : ℕ) : Option ℕ :=
  if n ≤ questionIndex ∨ interval < 1 then none
  else
    let newPosition := (questionIndex + interval) % n
    if newPosition ≤ questionIndex then some ((questionIndex + interval) % n + 1)
    else some newPosition

end Helpers

namespace Manager

/-- The result fields of `processAnswer` (src/unnamed/part_007) that the
claims are about: the source tag and interval finally applied, both
candidates, and the history entry recorded via `addReviewToHistory`.
The predictor is abstracted as an oracle `mlModel : Option (Except Unit ℚ)`:
`none` models a `null`/absent model, `some (Except.error ())` a
`predict` call that throws, `some (Except.ok i)` a successful
prediction.  The `try`/`catch` of the source is the `match` on that
outcome; totality of this function models "the review never surfaces an
error". -/
structure AnswerResult where
  algorithmUsed : Mode
  intervalUsed : ℚ
  baselineInterval : ℚ
  mlInterval : Option ℚ
  event : Helpers.ReviewEvent
  deriving DecidableEq

/-- `processAnswer(user, questionIndex, isCorrect, responseTime, mlModel)`
from src/unnamed/part_007, projected onto the fields of `AnswerResult`.
`mode` is `user.settings.algorithmMode || 'baseline'`; `abChar` is the
char code of the question id's first character (used only in `'ab-test'`
mode). -/
def processAnswer (question : SM2.Question) (isCorrect : Bool)
    (responseTime : ℚ) (mode : Mode) (abChar : ℕ)
    (mlModel : Option (Except Unit ℚ)) : AnswerResult :=
  let algorithmUsed :=
    if mode = Mode.abtest then
      if abChar % 2 = 0 then Mode.baseline else Mode.ml
    else mode
  let baselineResult := SM2.applySM2Algorithm question isCorrect responseTime
  let baselineInterval := baselineResult.interval
  let step : Mode × Option ℚ :=
    match mlModel with
    | none => (algorithmUsed, none)
    | some pred =>
      if algorithmUsed = Mode.ml ∨ mode = Mode.abtest then
        match pred with
        | Except.ok i => (algorithmUsed, some i)
        | Except.error _ => (Mode.baseline, some baselineInterval)
      else (algorithmUsed, none)
  let algorithmUsed := step.1
  let mlInterval := step.2
  let intervalUsed :=
    match algorithmUsed, mlInterval with
    | Mode.ml, some i => i
    | _, _ => baselineInterval
  let event := Helpers.mkHistoryEntry
    { recalled := isCorrect
      responseTime := responseTime
      intervalUsed := intervalUsed
      algorithmUsed := algorithmUsed
      baselineInterval := baselineInterval
      mlInterval := mlInterval
      difficulty := 3 }
  { algorithmUsed := algorithmUsed
    intervalUsed := intervalUsed
    baselineInterval := baselineInterval
    mlInterval := mlInterval
    event := event }

end Manager

namespace Model

/-- A persisted model artifact as read by `IntervalPredictionModel.load`
(src/ml/model.js): the architecture's declared input width (from
`model.json`) and the normalization stats (from
`normalization-stats.json`). -/
structure Artifact where
  inputWidth : ℕ
  mean : List ℚ
  std : List ℚ
  deriving DecidableEq

/-- The in-memory model state after a successful load. -/
structure ModelState where
  inputWidth : ℕ
  mean : List ℚ
  std : List ℚ
  isLoaded : Bool
  deriving DecidableEq

/-- `IntervalPredictionModel.load(modelPath)` from src/ml/model.js, given
that the artifact files are present and parse: it installs the model and
the normalization stats and sets `isLoaded = true`.  The source performs
no validation of the artifact's declared input width (claim C8 is about
this). -/
def load (a : Artifact) : Except String ModelState :=
  Except.ok { inputWidth := a.inputWidth, mean := a.mean, std := a.std, isLoaded := true }

/-- TensorFlow.js element-wise binary op between a rank-1 feature row of
length `v.length` and a stats vector `w`, with broadcasting: the shapes
are compatible iff `w` has the same length as `v` or length 1; otherwise
the operation throws (`none`). -/
def broadcastOp (op : ℚ → ℚ → ℚ) (v w : List ℚ) : Option (List ℚ) :=
  if w.length = v.length then some (List.zipWith op v w)
  else if w.length = 1 then some (v.map (fun x => op x (w.headD 0)))
  else none

/-- `normalizeFeatures(features)` (prediction path, `calculateStats =
false`) from src/ml/model.js: `features.sub(mean).div(std)` with
TensorFlow.js broadcasting; `none` models the shape-mismatch error. -/
def normalizeFeatures (s : ModelState) (v : List ℚ) : Option (List ℚ) := do
  let centered ← broadcastOp (fun a b => a - b) v s.mean
  broadcastOp (fun a b => a / b) centered s.std

/-- Outcome of one run of the offline training entry point. -/
structure TrainRun where
  warned : Bool
  fitted : Bool
  artifactSaved : Bool
  trainCount : ℕ
  testCount : ℕ
  deriving DecidableEq

/-- `trainModel(trainingDataPath)` from src/scripts/train-model.js with
the default options, as a function of the loaded sample count: fewer
than 50 samples only produce a console warning; the script then splits
the data 80/20 (`Math.floor(n * 0.8)`), always calls
`IntervalPredictionModel.train` (which itself performs no minimum-count
check, src/ml/model.js), and always saves the artifact. -/
def trainModelScript (sampleCount : ℕ) : TrainRun :=
  let warned := decide (sampleCount < 50)
  let splitIndex := sampleCount * 4 / 5
  { warned := warned
    fitted := true
    artifactSaved := true
    trainCount := splitIndex
    testCount := sampleCount - splitIndex }

end Model

/-! ## Helper lemmas -/

theorem ite_cap365_eq_min (x : ℚ) : (if x > 365 then (365 : ℚ) else x) = min 365 x := by
  rw [min_def]
  split_ifs <;> linarith

theorem ite_floor_eq_max (x : ℚ) : (if x < 13/10 then (13 : ℚ)/10 else x) = max (13/10) x := by
  rw [max_def]
  split_ifs <;> linarith

/-! ## Claims about the baseline scheduler -/

/-- Counterexample to C1 as stated: the claim quantifies over every
easiness input, but on a failed review (quality < 3) the source returns
the easiness unchanged, so an input easiness of 1 (below the 1.3 floor)
is returned as 1 < 1.3 — "the returned easiness is never below 1.3"
fails. -/
theorem sm2_easiness_counterexample :
    (SM2.calculateSM2Interval ⟨0, 1, 1, 3000⟩ false (some 2)).easeFactor = 1 ∧
    (SM2.calculateSM2Interval ⟨0, 1, 1, 3000⟩ false (some 2)).easeFactor < 13/10 := by
  norm_num [SM2.calculateSM2Interval, SM2.jsOrQ]

/-- C1 (amended: the input easiness is additionally assumed to be at
least 1.3, the data-model invariant; the source returns the easiness
unchanged on a failed review, so an input easiness below 1.3 is passed
through below 1.3).  For every quality in [0,5], repetitions,
easiness ≥ 1.3 and interval ≥ 1, the transition is deterministic (it
does not depend on the unused `isCorrect` flag or the card's average
response time); quality < 3 resets repetitions to 0 and the interval to
1, returning the easiness unchanged; otherwise the new easiness is the
SM-2 update floored at 1.3, the interval is 1 / 6 /
round(interval·newEasiness) capped at 365, and repetitions increments.
The returned easiness is never below 1.3 and the returned interval never
exceeds 365. -/
theorem sm2_baseline_transition (quality reps : ℕ) (ef ivl avg : ℚ) (b : Bool)
    (r : SM2.SM2Result)
    (hq : quality ≤ 5) (hef : 13/10 ≤ ef) (hivl : 1 ≤ ivl)
    (hr : r = SM2.calculateSM2Interval ⟨reps, ef, ivl, avg⟩ b (some quality)) :
    (∀ (b2 : Bool) (avg2 : ℚ),
        SM2.calculateSM2Interval ⟨reps, ef, ivl, avg2⟩ b2 (some quality) = r) ∧
    (quality < 3 → r.repetitions = 0 ∧ r.interval = 1 ∧ r.easeFactor = ef) ∧
    (3 ≤ quality →
      r.easeFactor =
        max (13/10) (ef + (1/10 - (5 - (quality : ℚ)) * (2/25 + (5 - (quality : ℚ)) * (1/50)))) ∧
      r.repetitions = reps + 1 ∧
      (reps = 0 → r.interval = 1) ∧
      (reps = 1 → r.interval = 6) ∧
      (2 ≤ reps → r.interval = min 365 (SM2.jsRound (ivl * r.easeFactor)))) ∧
    13/10 ≤ r.easeFactor ∧ r.interval ≤ 365 := by
  have hef0 : ef ≠ 0 := ne_of_gt (by linarith)
  have hivl0 : ivl ≠ 0 := ne_of_gt (by linarith)
  subst hr
  by_cases h3 : quality < 3
  · refine ⟨?_, ?_, ?_, ?_, ?_⟩
    · intro b2 avg2
      simp [SM2.calculateSM2Interval, SM2.jsOrQ, hef0, hivl0, h3]
    · intro _
      simp [SM2.calculateSM2Interval, SM2.jsOrQ, hef0, hivl0, h3]
    · intro hge
      omega
    · simpa [SM2.calculateSM2Interval, SM2.jsOrQ, hef0, hivl0, h3] using hef
    · simp [SM2.calculateSM2Interval, SM2.jsOrQ, hef0, hivl0, h3]
  · refine ⟨?_, ?_, ?_, ?_, ?_⟩
    · intro b2 avg2
      simp [SM2.calculateSM2Interval, SM2.jsOrQ, hef0, hivl0, h3]
    · intro hlt
      exact absurd hlt h3
    · intro _
      refine ⟨?_, ?_, ?_, ?_, ?_⟩
      · simp [SM2.calculateSM2Interval, SM2.jsOrQ, hef0, hivl0, h3, ite_floor_eq_max]
      · simp [SM2.calculateSM2Interval, SM2.jsOrQ, hef0, hivl0, h3]
      · intro h0
        simp [SM2.calculateSM2Interval, SM2.jsOrQ, hef0, hivl0, h3, h0]
      · intro h1
        simp [SM2.calculateSM2Interval, SM2.jsOrQ, hef0, hivl0, h3, h1]
        norm_num
      · intro h2
        have h0 : ¬ reps = 0 := by omega
        have h1 : ¬ reps = 1 := by omega
        simp [SM2.calculateSM2Interval, SM2.jsOrQ, hef0, hivl0, h3, h0, h1,
          ite_cap365_eq_min, ite_floor_eq_max]
    · simp only [SM2.calculateSM2Interval, SM2.jsOrQ, if_neg hef0, if_neg hivl0,
        if_neg h3, ite_floor_eq_max]
      exact le_max_left _ _
    · simp only [SM2.calculateSM2Interval, SM2.jsOrQ, if_neg hef0, if_neg hivl0,
        if_neg h3]
      split_ifs <;> linarith

/-- Witness for C1 at the concrete input of spec Scenario A: quality 4,
repetitions 0, easiness 2.5, interval 1 gives interval 1 and
repetitions 1. -/
theorem sm2_baseline_transition_witness :
    (SM2.calculateSM2Interval ⟨0, 5/2, 1, 3000⟩ true (some 4)).repetitions = 1 ∧
    (SM2.calculateSM2Interval ⟨0, 5/2, 1, 3000⟩ true (some 4)).interval = 1 := by
  have h := sm2_baseline_transition 4 0 (5/2) 1 3000 true
    (SM2.calculateSM2Interval ⟨0, 5/2, 1, 3000⟩ true (some 4))
    (by norm_num) (by norm_num) (by norm_num) rfl
  obtain ⟨-, -, h3, -, -⟩ := h
  obtain ⟨-, hrep, hi0, -, -⟩ := h3 (by norm_num)
  exact ⟨hrep, hi0 rfl⟩

/-- Counterexample to C2 as stated: at repetitions 5, easiness 2.5,
interval 40, quality 2, the returned easiness equals the input easiness
(2.5); it is not strictly lower.  The source updates the ease factor
only on the quality ≥ 3 path. -/
theorem sm2_failed_review_counterexample :
    (SM2.calculateSM2Interval ⟨5, 5/2, 40, 3000⟩ false (some 2)).easeFactor = 5/2 ∧
    ¬ (SM2.calculateSM2Interval ⟨5, 5/2, 40, 3000⟩ false (some 2)).easeFactor < 5/2 := by
  norm_num [SM2.calculateSM2Interval, SM2.jsOrQ]

/-- C2 (amended): for a card with repetitions 5, easiness 2.5, interval
40 reviewed at quality 2, the result has repetitions 0, interval 1, and
the easiness is returned unchanged (2.5), hence still at least 1.3. -/
theorem sm2_failed_review_resets :
    (SM2.calculateSM2Interval ⟨5, 5/2, 40, 3000⟩ false (some 2)).repetitions = 0 ∧
    (SM2.calculateSM2Interval ⟨5, 5/2, 40, 3000⟩ false (some 2)).interval = 1 ∧
    (SM2.calculateSM2Interval ⟨5, 5/2, 40, 3000⟩ false (some 2)).easeFactor = 5/2 ∧
    13/10 ≤ (SM2.calculateSM2Interval ⟨5, 5/2, 40, 3000⟩ false (some 2)).easeFactor := by
  norm_num [SM2.calculateSM2Interval, SM2.jsOrQ]

/-- Counterexample to C3 as stated: a correct answer at exactly the
historical average response time (3000 ms against an average of 3000 ms)
yields quality 3, not 4: the source's fast branch requires
`ratio < 1.0` strictly. -/
theorem quality_at_average_counterexample :
    SM2.calculateQualityWithResponseTime true 3000 3000 = 3 ∧
    SM2.calculateQualityWithResponseTime true 3000 3000 ≠ 4 := by
  norm_num [SM2.calculateQualityWithResponseTime]

/-- C3 (amended: the boundary of the quality-4 band is exclusive — a
correct answer needs `rt < avg` for quality 4, and `rt = avg` falls in
the quality-3 band).  For every correctness flag, response time `rt ≥ 0`
and historical average `avg > 0`: correct answers yield 5 when
`rt < avg/2`, 4 when `avg/2 ≤ rt < avg`, and 3 when `rt ≥ avg`;
incorrect answers yield 0 when `rt < 1000` ms, 1 when
`1000 ≤ rt ≤ 5000` ms, and 2 when `rt > 5000` ms. -/
theorem quality_derivation (b : Bool) (rt avg : ℚ) (q : ℕ)
    (hrt : 0 ≤ rt) (havg : 0 < avg)
    (hq : q = SM2.calculateQualityWithResponseTime b rt avg) :
    (b = true →
      (rt < avg/2 → q = 5) ∧ (avg/2 ≤ rt → rt < avg → q = 4) ∧ (avg ≤ rt → q = 3)) ∧
    (b = false →
      (rt < 1000 → q = 0) ∧ (1000 ≤ rt → rt ≤ 5000 → q = 1) ∧ (5000 < rt → q = 2)) := by
  subst hq
  have hhalf : rt / avg < 1/2 ↔ rt < avg/2 := by
    rw [div_lt_iff₀ havg]
    constructor <;> intro h <;> linarith
  have hone : rt / avg < 1 ↔ rt < avg := by
    rw [div_lt_iff₀ havg]
    constructor <;> intro h <;> linarith
  cases b
  · refine ⟨fun h => by simp at h, fun _ => ?_⟩
    have hform : SM2.calculateQualityWithResponseTime false rt avg
        = (if rt < 1000 then 0 else if rt > 5000 then 2 else 1) := by
      simp [SM2.calculateQualityWithResponseTime]
    refine ⟨fun h1 => ?_, fun h1 h2 => ?_, fun h1 => ?_⟩
    · rw [hform, if_pos h1]
    · rw [hform, if_neg (by linarith), if_neg (by linarith)]
    · rw [hform, if_neg (by linarith), if_pos (by linarith)]
  · refine ⟨fun _ => ?_, fun h => by simp at h⟩
    have hform : SM2.calculateQualityWithResponseTime true rt avg
        = (if rt / avg < 1/2 then 5 else if rt / avg < 1 then 4 else 3) := by
      simp [SM2.calculateQualityWithResponseTime]
    refine ⟨fun h1 => ?_, fun h1 h2 => ?_, fun h1 => ?_⟩
    · rw [hform, if_pos (hhalf.mpr h1)]
    · rw [hform, if_neg (by rw [hhalf]; push_neg; linarith), if_pos (hone.mpr h2)]
    · rw [hform, if_neg (by rw [hhalf]; push_neg; linarith),
        if_neg (by rw [hone]; push_neg; linarith)]

/-- Witness for C3 at a concrete input: a correct answer at 1000 ms
against a 3000 ms average is below half the average, so quality is 5. -/
theorem quality_derivation_witness :
    SM2.calculateQualityWithResponseTime true 1000 3000 = 5 := by
  have h := quality_derivation true 1000 3000
    (SM2.calculateQualityWithResponseTime true 1000 3000)
    (by norm_num) (by norm_num) rfl
  exact (h.1 rfl).1 (by norm_num)

/-! ## Claims about the feature synthesizer -/

theorem jsDiv_pos {y : ℚ} (hy : 0 < y) (x : ℚ) :
    Features.jsDiv x y = some (x / y) := by
  simp [Features.jsDiv, ne_of_gt hy]

theorem jsLog1p_nonneg {x : ℚ} (hx : 0 ≤ x) (p : Features.Prims) :
    Features.jsLog1p p x = some (p.log1p x) := by
  simp only [Features.jsLog1p, if_neg (by linarith : ¬ x ≤ -1)]

theorem jsSqrt_nonneg {x : ℚ} (hx : 0 ≤ x) (p : Features.Prims) :
    Features.jsSqrt p x = some (p.sqrt x) := by
  simp only [Features.jsSqrt, if_neg (by linarith : ¬ x < 0)]

/-- C4: for every non-negative assignment of the 8 base signals, the
feature pipeline succeeds (`some`, i.e. no NaN/Infinity is produced by
any of its guarded divisions, square roots or logarithms) and returns a
list of exactly 51 numbers in the fixed serving order.  Determinism is
definitional: `createFeatureArray` is a pure function of its inputs. -/
theorem feature_vector_total (p : Features.Prims) (b : Features.BaseFeatures)
    (hb : Features.NonnegBase b) :
    ∃ v : List ℚ, Features.createFeatureArray p b = some v ∧ v.length = 51 := by
  obtain ⟨h1, h2, h3, h4, h5, h6, h7, h8⟩ := hb
  have d1 : (0:ℚ) < max b.memoryStrength (1/10) := lt_max_of_lt_right (by norm_num)
  have hdecay : 0 ≤ b.timeSinceLastReview / max b.memoryStrength (1/10) :=
    div_nonneg h3 d1.le
  have d2 : (0:ℚ) < max (b.successRate * 2) (1/10) := lt_max_of_lt_right (by norm_num)
  have d3 : (0:ℚ) < max b.timeSinceLastReview 1 := lt_max_of_lt_right (by norm_num)
  have d4 : (0:ℚ) < max b.totalReviews 1 := lt_max_of_lt_right (by norm_num)
  have d5 : (0:ℚ) < max b.timeSinceLastReview (1/10) := lt_max_of_lt_right (by norm_num)
  have d6 : (0:ℚ) < max (b.averageResponseTime / 1000) (1/10) :=
    lt_max_of_lt_right (by norm_num)
  have hinter : (Features.calculateInteractionFeatures b).isSome := by
    unfold Features.calculateInteractionFeatures
    by_cases hd : b.difficultyRating > 0
    · simp [hd, jsDiv_pos hd, jsDiv_pos (by linarith : (0:ℚ) < b.difficultyRating + 1)]
    · simp [hd]
  obtain ⟨i, hi⟩ := Option.isSome_iff_exists.mp hinter
  have hmain : (Features.createAdvancedFeatureVector p b).isSome := by
    unfold Features.createAdvancedFeatureVector Features.calculateForgettingCurveFeatures
      Features.calculatePolynomialFeatures Features.calculateMovingAverageFeatures
      Features.calculateMomentumFeatures Features.calculateRetentionFeatures
    simp only [hi, jsDiv_pos d1, jsDiv_pos d2, jsDiv_pos d3, jsDiv_pos d4, jsDiv_pos d5,
      jsDiv_pos d6, jsLog1p_nonneg hdecay, jsLog1p_nonneg h1,
      jsSqrt_nonneg (le_max_right b.memoryStrength 0),
      jsSqrt_nonneg (le_max_right b.timeSinceLastReview 0),
      jsSqrt_nonneg (le_max_right b.totalReviews 0),
      Option.pure_def, Option.bind_eq_bind, Option.some_bind, Option.isSome_some]
  obtain ⟨a, ha⟩ := Option.isSome_iff_exists.mp hmain
  refine ⟨Features.getFeatureArray a, ?_, ?_⟩
  · simp [Features.createFeatureArray, ha]
  · simp [Features.getFeatureArray]

/-- Witness for C4: the all-zero base input (interval 0, difficulty 0,
empty history) yields a defined 51-wide vector. -/
theorem feature_vector_total_witness :
    ∃ v : List ℚ,
      Features.createFeatureArray Features.zeroPrims ⟨0, 0, 0, 0, 0, 0, 0, 0⟩ = some v ∧
      v.length = 51 :=
  feature_vector_total Features.zeroPrims ⟨0, 0, 0, 0, 0, 0, 0, 0⟩
    (by norm_num [Features.NonnegBase])

/-! ## Claims about the schedule store -/

/-- Counterexample to C6 as stated: the advance is not always strictly
forward and not always in bounds.  With N = 5, current index 2 and
interval 4, the wrapped landing position is 1 ≤ 2, so the +1 tie-break
produces head = 2 — equal to the current index.  With N = 2, current
index 1 and interval 2, the tie-break produces head = 2 = N — out of
bounds. -/
theorem schedule_advance_counterexample :
    Helpers.updateLinkedListNext 5 2 4 = some 2 ∧
    Helpers.updateLinkedListNext 2 1 2 = some 2 := by
  constructor <;> rfl

/-- C6 (amended): for N ≥ 1, 0 ≤ i < N, interval ≥ 1, the successor is
`(i + interval) mod N`, with a +1 tie-break whenever that value is ≤ i,
and the head becomes that successor.  The head always lies in [0, N]; it
is a valid index different from i except in two cases: when
N divides interval and i = N−1 the head equals N (out of bounds), and
when interval ≡ N−1 (mod N) and i ≥ 1 the head equals i. -/
theorem schedule_advance_forward (n i interval hd : ℕ)
    (hn : 1 ≤ n) (hi : i < n) (hk : 1 ≤ interval)
    (hhd : Helpers.updateLinkedListNext n i interval = some hd) :
    hd = (if (i + interval) % n ≤ i then (i + interval) % n + 1
          else (i + interval) % n) ∧
    hd ≤ n ∧
    ((i + interval) % n = i ↔ interval % n = 0) ∧
    (¬ (interval % n = 0 ∧ i = n - 1) → hd < n) ∧
    (¬ (interval % n = n - 1 ∧ 1 ≤ i) → hd ≠ i) := by
  have hguard : ¬ (n ≤ i ∨ interval < 1) := by omega
  simp only [Helpers.updateLinkedListNext, if_neg hguard] at hhd
  have hk' : interval % n < n := Nat.mod_lt _ (by omega)
  have hrn : (i + interval) % n < n := Nat.mod_lt _ (by omega)
  have h0 : (i + interval) % n = (i + interval % n) % n := by
    conv_lhs => rw [Nat.add_mod]
    rw [Nat.mod_eq_of_lt hi]
  have hcases : (i + interval) % n = i + interval % n ∨
      ((i + interval) % n = i + interval % n - n ∧ n ≤ i + interval % n) := by
    rcases lt_or_ge (i + interval % n) n with h | h
    · exact Or.inl (by rw [h0, Nat.mod_eq_of_lt h])
    · refine Or.inr ⟨?_, h⟩
      rw [h0, Nat.mod_eq_sub_mod h, Nat.mod_eq_of_lt (by omega)]
  have hdval : hd = (if (i + interval) % n ≤ i then (i + interval) % n + 1
      else (i + interval) % n) := by
    split_ifs at hhd ⊢ with hle
    · exact (Option.some.inj hhd).symm
    · exact (Option.some.inj hhd).symm
  refine ⟨hdval, ?_, ?_, ?_, ?_⟩ <;>
    (rcases hcases with h | ⟨h, h2⟩ <;> split_ifs at hdval <;> omega)

/-- Witness for C6 at a concrete input: N = 5, index 1, interval 2 moves
the head to 3, a valid index strictly after 1. -/
theorem schedule_advance_forward_witness :
    Helpers.updateLinkedListNext 5 1 2 = some 3 ∧ 3 < 5 ∧ (3 : ℕ) ≠ 1 := by
  have h := schedule_advance_forward 5 1 2 3 (by norm_num) (by norm_num) (by norm_num) rfl
  exact ⟨rfl, h.2.2.2.1 (by decide), h.2.2.2.2 (by decide)⟩

/-- C9: appending a review event keeps the history at ≤ 100 entries; the
result is exactly the (up to) 100 most recent entries of the appended
log, oldest evicted first, in order. -/
theorem review_history_bounded (history : List Helpers.ReviewEvent)
    (r : Helpers.ReviewData) :
    (Helpers.addReviewToHistory history r).length ≤ 100 ∧
    (Helpers.addReviewToHistory history r).length = min (history.length + 1) 100 ∧
    Helpers.addReviewToHistory history r =
      (history ++ [Helpers.mkHistoryEntry r]).drop (history.length + 1 - 100) := by
  simp only [Helpers.addReviewToHistory]
  have hlen : (history ++ [Helpers.mkHistoryEntry r]).length = history.length + 1 := by
    simp
  split_ifs with h
  · rw [hlen] at h
    refine ⟨?_, ?_, ?_⟩
    · rw [List.length_drop, hlen]
      omega
    · rw [List.length_drop, hlen]
      omega
    · rw [hlen]
  · rw [hlen] at h
    refine ⟨?_, ?_, ?_⟩
    · rw [hlen]
      omega
    · rw [hlen]
      omega
    · rw [show history.length + 1 - 100 = 0 by omega, List.drop_zero]

/-! ## Claims about the algorithm manager -/

theorem one_le_jsRound {x : ℚ} (hx : 1/2 ≤ x) : 1 ≤ SM2.jsRound x := by
  unfold SM2.jsRound
  have h : (1:ℤ) ≤ ⌊x + 1/2⌋ := Int.le_floor.mpr (by push_cast; linarith)
  exact_mod_cast h

/-- The SM-2 transition never returns an interval below 1 day, provided
the card's stored interval is at least 1 (the system invariant:
`initializeQuestion` sets it to 1 and both update paths clamp it to
≥ 1). -/
theorem sm2_interval_ge_one (question : SM2.Question) (isCorrect : Bool)
    (userQuality : Option ℕ) (hms : 1 ≤ question.memoryStrength) :
    1 ≤ (SM2.calculateSM2Interval question isCorrect userQuality).interval := by
  have hms0 : ¬ question.memoryStrength = 0 := by
    intro h
    rw [h] at hms
    norm_num at hms
  simp only [SM2.calculateSM2Interval, SM2.jsOrQ, if_neg hms0]
  split_ifs <;>
    first
      | (norm_num
         done)
      | (apply one_le_jsRound
         push_neg at *
         nlinarith [hms])

/-- Counterexample to C5 as stated: in learned-only mode with the model
absent (`null`, e.g. no artifact is loaded), `processAnswer` applies the
baseline interval but the recorded source tag stays `'ml'`; the tag does
not identify the baseline algorithm. -/
theorem ml_fallback_tag_counterexample :
    (Manager.processAnswer ⟨0, 5/2, 1, 3000⟩ true 1500 Mode.ml 0 none).intervalUsed =
      (Manager.processAnswer ⟨0, 5/2, 1, 3000⟩ true 1500 Mode.ml 0 none).baselineInterval ∧
    (Manager.processAnswer ⟨0, 5/2, 1, 3000⟩ true 1500 Mode.ml 0 none).algorithmUsed = Mode.ml ∧
    (Manager.processAnswer ⟨0, 5/2, 1, 3000⟩ true 1500 Mode.ml 0 none).event.algorithmUsed =
      Mode.ml ∧
    Mode.ml ≠ Mode.baseline := by
  refine ⟨rfl, rfl, rfl, by decide⟩

/-- C5 (amended): in learned-only mode, a failing learned path never
surfaces an error (`processAnswer` is total) and the interval applied is
always the baseline candidate.  When the failure is an exception raised
during prediction, the recorded source tag correctly becomes the
baseline tag; when the model is absent (`null`), the applied interval is
still the baseline candidate but the recorded tag remains the learned
tag. -/
theorem ml_failure_falls_back (question : SM2.Question) (isCorrect : Bool)
    (responseTime : ℚ) (abChar : ℕ) (mlModel : Option (Except Unit ℚ))
    (res : Manager.AnswerResult)
    (hres : res = Manager.processAnswer question isCorrect responseTime Mode.ml abChar mlModel) :
    res.baselineInterval = (SM2.applySM2Algorithm question isCorrect responseTime).interval ∧
    (mlModel = some (Except.error ()) →
      res.algorithmUsed = Mode.baseline ∧
      res.intervalUsed = res.baselineInterval ∧
      res.event.algorithmUsed = Mode.baseline ∧
      res.event.intervalUsed = res.baselineInterval) ∧
    (mlModel = none →
      res.intervalUsed = res.baselineInterval ∧
      res.algorithmUsed = Mode.ml ∧
      res.event.algorithmUsed = Mode.ml) := by
  subst hres
  refine ⟨rfl, fun hfail => ?_, fun habsent => ?_⟩
  · subst hfail
    refine ⟨rfl, rfl, rfl, rfl⟩
  · subst habsent
    refine ⟨rfl, rfl, rfl⟩

/-- Witness for C5: a throwing predictor in learned-only mode at a
concrete input yields the baseline tag and the baseline interval. -/
theorem ml_failure_falls_back_witness :
    (Manager.processAnswer ⟨0, 5/2, 1, 3000⟩ true 1500 Mode.ml 0
        (some (Except.error ()))).algorithmUsed = Mode.baseline ∧
    (Manager.processAnswer ⟨0, 5/2, 1, 3000⟩ true 1500 Mode.ml 0
        (some (Except.error ()))).intervalUsed =
      (Manager.processAnswer ⟨0, 5/2, 1, 3000⟩ true 1500 Mode.ml 0
        (some (Except.error ()))).baselineInterval := by
  have h := ml_failure_falls_back ⟨0, 5/2, 1, 3000⟩ true 1500 0
    (some (Except.error ()))
    (Manager.processAnswer ⟨0, 5/2, 1, 3000⟩ true 1500 Mode.ml 0
      (some (Except.error ()))) rfl
  obtain ⟨-, hfail, -⟩ := h
  obtain ⟨h1, h2, -, -⟩ := hfail rfl
  exact ⟨h1, h2⟩

/-- C10: when the learned prediction is attempted and throws, the
recorded review event stores the baseline interval in its `mlInterval`
field (not `null`): the catch block assigns `mlInterval =
baselineInterval`, and since the baseline interval is ≥ 1 it survives
the `reviewData.mlInterval || null` coercion in `addReviewToHistory`.
The recorded learned candidate is therefore indistinguishable from the
baseline candidate. -/
theorem fallback_event_records_baseline (question : SM2.Question)
    (isCorrect : Bool) (responseTime : ℚ) (mode : Mode) (abChar : ℕ)
    (res : Manager.AnswerResult)
    (hms : 1 ≤ question.memoryStrength)
    (hmode : mode = Mode.ml ∨ mode = Mode.abtest)
    (hres : res = Manager.processAnswer question isCorrect responseTime mode abChar
      (some (Except.error ()))) :
    res.event.mlInterval = some res.baselineInterval ∧
    res.event.mlInterval ≠ none ∧
    res.event.baselineInterval = res.baselineInterval := by
  have hb : 1 ≤ (SM2.applySM2Algorithm question isCorrect responseTime).interval := by
    unfold SM2.applySM2Algorithm
    exact sm2_interval_ge_one question isCorrect _ hms
  have hb0 : ¬ (SM2.applySM2Algorithm question isCorrect responseTime).interval = 0 := by
    intro h
    rw [h] at hb
    norm_num at hb
  subst hres
  rcases hmode with h | h <;> subst h
  · refine ⟨?_, ?_, rfl⟩ <;>
      simp [Manager.processAnswer, Helpers.mkHistoryEntry, Helpers.jsOrOptQ, hb0]
  · refine ⟨?_, ?_, rfl⟩ <;>
      simp [Manager.processAnswer, Helpers.mkHistoryEntry, Helpers.jsOrOptQ, hb0]

/-- Witness for C10 at a concrete input: the recorded `mlInterval` after
a throwing prediction equals the baseline candidate and is not `null`. -/
theorem fallback_event_records_baseline_witness :
    (Manager.processAnswer ⟨0, 5/2, 1, 3000⟩ true 1500 Mode.ml 0
        (some (Except.error ()))).event.mlInterval =
      some (Manager.processAnswer ⟨0, 5/2, 1, 3000⟩ true 1500 Mode.ml 0
        (some (Except.error ()))).baselineInterval ∧
    (Manager.processAnswer ⟨0, 5/2, 1, 3000⟩ true 1500 Mode.ml 0
        (some (Except.error ()))).event.mlInterval ≠ none := by
  have h := fallback_event_records_baseline ⟨0, 5/2, 1, 3000⟩ true 1500 Mode.ml 0
    (Manager.processAnswer ⟨0, 5/2, 1, 3000⟩ true 1500 Mode.ml 0
      (some (Except.error ()))) (by norm_num) (Or.inl rfl) rfl
  exact ⟨h.1, h.2.1⟩

/-! ## Claims about the trainer and artifact persistence -/

/-- Counterexample to C7 as stated: a 10-sample dataset does not abort
training.  The training script warns (10 < 50) but proceeds to fit and
saves an artifact; no `TrainingDataInsufficientError` exists in the
source. -/
theorem small_dataset_trains_counterexample :
    (Model.trainModelScript 10).fitted = true ∧
    (Model.trainModelScript 10).artifactSaved = true ∧
    (Model.trainModelScript 10).warned = true := by
  refine ⟨rfl, rfl, rfl⟩

/-- C7 (amended): for every sample count, the trainer proceeds to fit
and saves an artifact; a count below 50 only produces a console warning,
and the data is split 80/20 for training/testing.  Training never
aborts on an undersized dataset. -/
theorem training_never_aborts (n : ℕ) :
    (Model.trainModelScript n).fitted = true ∧
    (Model.trainModelScript n).artifactSaved = true ∧
    ((Model.trainModelScript n).warned = true ↔ n < 50) ∧
    (Model.trainModelScript n).trainCount = n * 4 / 5 ∧
    (Model.trainModelScript n).testCount = n - n * 4 / 5 := by
  refine ⟨rfl, rfl, ?_, rfl, rfl⟩
  simp [Model.trainModelScript]

theorem broadcastOp_length (op : ℚ → ℚ → ℚ) (v w r : List ℚ)
    (h : Model.broadcastOp op v w = some r) : r.length = v.length := by
  unfold Model.broadcastOp at h
  split_ifs at h with h1 h2
  · obtain rfl := Option.some.inj h
    simp [h1]
  · obtain rfl := Option.some.inj h
    simp

/-- Counterexample to C8 as stated: an artifact whose declared input
width is 8 (with 8-wide normalization stats) loads successfully — the
load path performs no width check against the 51-feature contract. -/
theorem mismatched_artifact_loads_counterexample :
    Model.load ⟨8, List.replicate 8 0, List.replicate 8 1⟩ =
      Except.ok ⟨8, List.replicate 8 0, List.replicate 8 1, true⟩ ∧
    (8 : ℕ) ≠ 51 := by
  exact ⟨rfl, by decide⟩

/-- C8 (amended): loading performs no width check — any artifact is
accepted.  The mismatch instead surfaces at prediction time: normalizing
a 51-wide feature vector against stats whose length is neither 51 nor 1
fails (a TensorFlow.js shape error) rather than truncating or padding;
and whenever normalization does succeed, the output width equals the
input width — the feature vector is never truncated or padded. -/
theorem artifact_width_check (a : Model.Artifact) (v : List ℚ)
    (hv : v.length = 51) (hm : a.mean.length ≠ 51) (hm1 : a.mean.length ≠ 1) :
    Model.load a = Except.ok ⟨a.inputWidth, a.mean, a.std, true⟩ ∧
    Model.normalizeFeatures ⟨a.inputWidth, a.mean, a.std, true⟩ v = none ∧
    (∀ (s : Model.ModelState) (w u : List ℚ),
        Model.normalizeFeatures s w = some u → u.length = w.length) := by
  refine ⟨rfl, ?_, ?_⟩
  · unfold Model.normalizeFeatures Model.broadcastOp
    rw [hv]
    simp only [if_neg hm, if_neg hm1]
    rfl
  · intro s w u h
    unfold Model.normalizeFeatures at h
    obtain ⟨c, hc, hcu⟩ := Option.bind_eq_some.mp h
    have h1 := broadcastOp_length _ _ _ _ hc
    have h2 := broadcastOp_length _ _ _ _ hcu
    omega

/-- Witness for C8 at a concrete input: an 8-wide artifact loads but
normalizing a 51-wide vector against it fails. -/
theorem artifact_width_check_witness :
    Model.load ⟨8, List.replicate 8 0, List.replicate 8 1⟩ =
      Except.ok ⟨8, List.replicate 8 0, List.replicate 8 1, true⟩ ∧
    Model.normalizeFeatures ⟨8, List.replicate 8 0, List.replicate 8 1, true⟩
      (List.replicate 51 0) = none := by
  have h := artifact_width_check ⟨8, List.replicate 8 0, List.replicate 8 1⟩
    (List.replicate 51 0) (by simp) (by simp) (by simp)
  exact ⟨h.1, h.2.1⟩

